import Mathlib

/-!
Verification model of MAZI2/raspberryPi-video-mapper.

Shallow embedding of the keystone homography solver (src/common.c,
test3.c), the video-source lifecycle (src/video.c), the NV12 plane
uploader (src/video.c), and the crossfade engine (src/video_engine.c).
C `float` arithmetic is modelled over the exact rationals ℚ; machine
`Uint32` tick arithmetic is modelled as Nat with explicit wrap-around
subtraction mod 2^32.  GStreamer / OpenGL handles are opaque: a pointer
field is `Option Unit` (none = NULL), a GLuint texture id is a `Nat`.
-/

set_option allowUnsafeReducibility true

attribute [semireducible] Rat.add Rat.sub Rat.mul Rat.div Rat.inv Rat.neg Rat.normalize Rat.blt

/-- The literal 1e-6f used by common.c as a numerical safety valve,
modelled exactly. -/
def eps : ℚ := 1 / 1000000

/-- Row-major 3x3 homography matrix `[a b c; d e f; g h i]`, the
`float H[9]` of common.c with `H[8] = i = 1`. -/
structure HMatrix where
  a : ℚ
  b : ℚ
  c : ℚ
  d : ℚ
  e : ℚ
  f : ℚ
  g : ℚ
  h : ℚ
  i : ℚ
  deriving DecidableEq

/-- Model of `homography_square_to_quad` (common.c lines 119-159):
maps the unit square corners (0,0),(1,0),(1,1),(0,1) to
(x0,y0),(x1,y1),(x2,y2),(x3,y3). -/
def homography_square_to_quad (x0 y0 x1 y1 x2 y2 x3 y3 : ℚ) : HMatrix :=
  let dx1 := x1 - x2
  let dx2 := x3 - x2
  let dx3 := x0 - x1 + x2 - x3
  let dy1 := y1 - y2
  let dy2 := y3 - y2
  let dy3 := y0 - y1 + y2 - y3
  if dx3 = 0 ∧ dy3 = 0 then
    { a := x1 - x0, b := x3 - x0, c := x0
      d := y1 - y0, e := y3 - y0, f := y0
      g := 0, h := 0, i := 1 }
  else
    let det0 := dx1 * dy2 - dx2 * dy1
    let det := if det0 = 0 then eps else det0
    let g := (dx3 * dy2 - dx2 * dy3) / det
    let h := (dx1 * dy3 - dx3 * dy1) / det
    { a := x1 - x0 + g * x1, b := x3 - x0 + h * x3, c := x0
      d := y1 - y0 + g * y1, e := y3 - y0 + h * y3, f := y0
      g := g, h := h, i := 1 }

/-- Model of `apply_homography` (test3.c lines 190-201): homogeneous
divide, substituting eps when the denominator is zero. -/
def apply_homography (H : HMatrix) (u v : ℚ) : ℚ × ℚ :=
  let denom0 := H.g * u + H.h * v + 1
  let denom := if denom0 = 0 then eps else denom0
  ((H.a * u + H.b * v + H.c) / denom, (H.d * u + H.e * v + H.f) / denom)

/-- Non-degeneracy of a corner set, phrased on the solver's own branch
data: either the affine branch applies, or the 2x2 determinant is
nonzero; and the perspective denominator does not vanish at any of the
four unit-square corners.  A proper (convex, positively oriented)
quadrilateral satisfies all of these. -/
def cornersNondegenerate (x0 y0 x1 y1 x2 y2 x3 y3 : ℚ) : Prop :=
  let dx1 := x1 - x2
  let dx2 := x3 - x2
  let dx3 := x0 - x1 + x2 - x3
  let dy1 := y1 - y2
  let dy2 := y3 - y2
  let dy3 := y0 - y1 + y2 - y3
  let H := homography_square_to_quad x0 y0 x1 y1 x2 y2 x3 y3
  ((dx3 = 0 ∧ dy3 = 0) ∨ dx1 * dy2 - dx2 * dy1 ≠ 0) ∧
    1 + H.g ≠ 0 ∧ 1 + H.h ≠ 0 ∧ 1 + H.g + H.h ≠ 0

instance (x0 y0 x1 y1 x2 y2 x3 y3 : ℚ) :
    Decidable (cornersNondegenerate x0 y0 x1 y1 x2 y2 x3 y3) := by
  unfold cornersNondegenerate
  infer_instance

/-- One video-source slot, the `Video` struct of video.h used by
src/video.c: pipeline/appsink/bus pointers, recorded frame size, the
two NV12 texture ids with their init flag, the source path, and the
playing flag. -/
structure Video where
  pipeline : Option Unit
  appsink : Option Unit
  bus : Option Unit
  width : Int
  height : Int
  texY : Nat
  texUV : Nat
  tex_inited : Bool
  path : String
  playing : Bool
  deriving DecidableEq

/-- The all-zero `Video` produced by `memset(v, 0, sizeof(*v))`. -/
def video_empty : Video :=
  { pipeline := none, appsink := none, bus := none
    width := 0, height := 0
    texY := 0, texUV := 0, tex_inited := false
    path := "", playing := false }

/-- Model of `video_reset` (video.c lines 3-6): zero the whole struct. -/
def video_reset (_ : Video) : Video := video_empty

/-- Which step of `video_start` fails, if any: `gst_parse_launch`
returning NULL, `gst_bin_get_by_name` not finding the appsink, or
`gst_element_set_state` returning failure.  This is the environment
oracle for video.c lines 24-47. -/
inductive StartStep where
  | parseFail
  | sinkFail
  | stateFail
  | ok
  deriving DecidableEq

/-- Model of `video_start` (video.c lines 8-53).  Returns the C return
value, the state the struct is left in, and the lines printed.  The
struct is zeroed and the path recorded first; handles are then acquired
step by step, and on failure the function returns immediately, leaving
whatever handles were already stored. -/
def video_start (v : Video) (filename : String) (step : StartStep) :
    Bool × Video × List String :=
  let v := video_reset v
  let v := { v with path := filename }
  match step with
  | .parseFail => (false, v, ["gst_parse_launch failed"])
  | .sinkFail => (false, { v with pipeline := some () }, ["appsink not found in pipeline"])
  | .stateFail =>
      (false, { v with pipeline := some (), appsink := some (), bus := some () },
        ["Failed to set pipeline PLAYING"])
  | .ok =>
      (true,
        { v with pipeline := some (), appsink := some (), bus := some (), playing := true },
        ["Video started (NV12)"])

/-- Model of `video_stop` (video.c lines 55-71): drive the pipeline to
NULL and unref the three handles; textures are deliberately left alone. -/
def video_stop (v : Video) : Video :=
  { v with pipeline := none, appsink := none, bus := none, playing := false }

/-- Model of `video_delete_textures` (video.c lines 73-83). -/
def video_delete_textures (v : Video) : Video :=
  if v.tex_inited then { v with tex_inited := false, texY := 0, texUV := 0 }
  else v

/-- Model of `video_update_texture` (video.c lines 188-205) at the
engine level of abstraction: a no-op without an appsink; otherwise, if
the non-blocking pull yields a sample this tick (the `frame` oracle),
the NV12 upload initializes the textures.  The byte-level upload is
modelled separately by `uploadPlane` / `upload_nv12_frame`. -/
def video_update_texture (v : Video) (frame : Bool) : Video :=
  if v.appsink = none then v
  else if frame then { v with tex_inited := true } else v

/-- One uploaded texture plane as a map from (row, byte-in-row) to the
byte value stored in the texture. -/
def uploadPlane (rowBytes stride : Nat) (data : Nat → Nat) : Nat → Nat → Nat :=
  if stride = rowBytes then
    fun r i => data (r * rowBytes + i)
  else
    fun r i => data (r * stride + i)

/-- A mapped NV12 frame: width, height, per-plane strides and the raw
plane bytes, as read by `upload_nv12_frame` (video.c lines 118-186). -/
structure FramePlanes where
  w : Nat
  h : Nat
  strideY : Nat
  strideUV : Nat
  dataY : Nat → Nat
  dataUV : Nat → Nat

/-- Model of the plane-upload part of `upload_nv12_frame` (video.c
lines 158-183): the Y plane has tight row size `w` and `h` rows; the
UV plane has tight row size `(w/2)*2` bytes (2 bytes per texel) and
`h/2` rows.  Each plane is uploaded whole when its stride is tight and
row-by-row at stride offsets otherwise. -/
def upload_nv12_frame (f : FramePlanes) : (Nat → Nat → Nat) × (Nat → Nat → Nat) :=
  (uploadPlane f.w f.strideY f.dataY,
    uploadPlane (f.w / 2 * 2) f.strideUV f.dataUV)

/-- Crossfade engine state, the `VideoEngine` struct of
video_engine.h. -/
structure VideoEngine where
  cur : Video
  nxt : Video
  transitioning : Bool
  blend : ℚ
  xfade_start_ms : Nat
  xfade_seconds : ℚ
  pending_path : String
  pending : Bool
  deriving DecidableEq

/-- Model of `ve_init` (video_engine.c lines 25-29): zero everything,
then set the crossfade duration to XFADE_SECONDS = 0.60. -/
def ve_init : VideoEngine :=
  { cur := video_empty, nxt := video_empty, transitioning := false
    blend := 0, xfade_start_ms := 0, xfade_seconds := 3 / 5
    pending_path := "", pending := false }

/-- Model of `ve_start_current` (video_engine.c lines 31-37). -/
def ve_start_current (ve : VideoEngine) (path : String) (step : StartStep) :
    Bool × VideoEngine :=
  let r := video_start ve.cur path step
  (r.1, { ve with cur := r.2.1 })

/-- Model of `ve_request_transition` (video_engine.c lines 39-49):
ignore NULL/empty paths, otherwise overwrite the single pending request
with the latest path. -/
def ve_request_transition (ve : VideoEngine) (path : String) : VideoEngine :=
  if path = "" then ve
  else { ve with pending_path := path, pending := true }

/-- Externally visible side effects of one engine tick. -/
inductive VEAction where
  | startVideo (path : String) (ok : Bool)
  | stopVideo (v : Video)
  | deleteTextures (v : Video)
  deriving DecidableEq

/-- Model of `ve_try_start_next` (video_engine.c lines 3-23): when a
request is pending and no transition is running, start the next
pipeline on the pending path; on failure just drop the request, on
success enter the transition with blend 0 and the fade clock unset. -/
def ve_try_start_next (ve : VideoEngine) (step : StartStep) :
    VideoEngine × List VEAction :=
  if ve.pending = false then (ve, [])
  else if ve.transitioning then (ve, [])
  else
    let r := video_start ve.nxt ve.pending_path step
    if r.1 = false then
      ({ ve with nxt := r.2.1, pending := false },
        [VEAction.startVideo ve.pending_path false])
    else
      ({ ve with
          nxt := r.2.1
          pending := false
          transitioning := true
          blend := 0
          xfade_start_ms := 0 },
        [VEAction.startVideo ve.pending_path true])

/-- Environment of one `ve_update` tick: the two `SDL_GetTicks()`
readings taken inside the call (first at the fade-clock latch site,
video_engine.c line 64, then at the blend site, line 71), whether a
decoded sample is available for each slot, and the outcome of
`video_start` should a pending request be serviced this tick. -/
structure TickInput where
  now1 : Nat
  now2 : Nat
  curFrame : Bool
  nxtFrame : Bool
  startStep : StartStep
  deriving DecidableEq

/-- A well-formed tick: Uint32 clock readings, non-decreasing within
the call. -/
def WFInput (inp : TickInput) : Prop :=
  inp.now1 ≤ inp.now2 ∧ inp.now2 < 2 ^ 32

instance (inp : TickInput) : Decidable (WFInput inp) := by
  unfold WFInput
  infer_instance

/-- Uint32 subtraction `a - b` mod 2^32, as computed by
`now - ve->xfade_start_ms` on Uint32 values. -/
def usub32 (a b : Nat) : Nat :=
  (a % 2 ^ 32 + 2 ^ 32 - b % 2 ^ 32) % 2 ^ 32

/-- The blend value computed while fading (video_engine.c lines 71-76):
`t = (now - start)/1000; b = t / xfade_seconds` clamped to [0, 1]. -/
def compute_blend (diffMs : Nat) (durSeconds : ℚ) : ℚ :=
  let t : ℚ := (diffMs : ℚ) / 1000
  let b := t / durSeconds
  let b := if b < 0 then 0 else b
  if 1 < b then 1 else b

/-- Model of `ve_update` (video_engine.c lines 51-99).  Bus polling
(lines 54-55) only seeks/logs inside the slots and changes no modelled
field.  Returns the new engine state and the tick's side effects. -/
def ve_update (ve : VideoEngine) (inp : TickInput) : VideoEngine × List VEAction :=
  let ve1 := { ve with cur := video_update_texture ve.cur inp.curFrame }
  if ve1.transitioning then
    let ve2 := { ve1 with nxt := video_update_texture ve1.nxt inp.nxtFrame }
    let ve3 :=
      if ve2.xfade_start_ms = 0 ∧ ve2.nxt.tex_inited then
        { ve2 with xfade_start_ms := inp.now1, blend := 0 }
      else ve2
    if ve3.xfade_start_ms ≠ 0 then
      let b := compute_blend (usub32 inp.now2 ve3.xfade_start_ms) ve3.xfade_seconds
      let ve4 := { ve3 with blend := b }
      if 1 ≤ ve4.blend then
        ({ ve4 with
            cur := ve4.nxt
            nxt := video_reset ve4.nxt
            transitioning := false
            blend := 0
            xfade_start_ms := 0 },
          [VEAction.stopVideo ve4.cur, VEAction.deleteTextures (video_stop ve4.cur)])
      else (ve4, [])
    else (ve3, [])
  else ve_try_start_next ve1 inp.startStep

/-- A run of consecutive `ve_update` ticks, accumulating effects. -/
def ve_run (ve : VideoEngine) : List TickInput → VideoEngine × List VEAction
  | [] => (ve, [])
  | inp :: rest =>
      let r := ve_update ve inp
      let r' := ve_run r.1 rest
      (r'.1, r.2 ++ r'.2)

/-- Engine states reachable through the public entry points of
video_engine.c, starting from `ve_init`. -/
inductive Reachable : VideoEngine → Prop where
  | init : Reachable ve_init
  | request (ve : VideoEngine) (p : String) :
      Reachable ve → Reachable (ve_request_transition ve p)
  | startCur (ve : VideoEngine) (p : String) (step : StartStep) :
      Reachable ve → Reachable (ve_start_current ve p step).2
  | update (ve : VideoEngine) (inp : TickInput) :
      Reachable ve → WFInput inp → Reachable (ve_update ve inp).1

/-- What the GL calls of `ve_bind_textures_and_blend` (video_engine.c
lines 101-135) leave bound: texture ids on units 0-3 and the value of
the uBlend uniform. -/
structure BindResult where
  unit0 : Nat
  unit1 : Nat
  unit2 : Nat
  unit3 : Nat
  blendUniform : ℚ
  deriving DecidableEq

/-- Model of `ve_bind_textures_and_blend` (video_engine.c lines
101-135). -/
def ve_bind_textures_and_blend (ve : VideoEngine) : BindResult :=
  let u0 := if ve.cur.tex_inited then ve.cur.texY else 0
  let u1 := if ve.cur.tex_inited then ve.cur.texUV else 0
  if ve.transitioning ∧ ve.nxt.tex_inited then
    { unit0 := u0, unit1 := u1, unit2 := ve.nxt.texY, unit3 := ve.nxt.texUV
      blendUniform := ve.blend }
  else
    { unit0 := u0, unit1 := u1
      unit2 := if ve.cur.tex_inited then ve.cur.texY else 0
      unit3 := if ve.cur.tex_inited then ve.cur.texUV else 0
      blendUniform := 0 }

/-- Invariant maintained by the engine: the crossfade duration stays at
XFADE_SECONDS, and while a transition is running whose next source has
no texture yet, the blend is still 0 and the fade clock is unset. -/
def EngineInv (ve : VideoEngine) : Prop :=
  ve.xfade_seconds = 3 / 5 ∧
    (ve.transitioning = true → ve.nxt.tex_inited = false →
      ve.blend = 0 ∧ ve.xfade_start_ms = 0)

/-- Sample path used by concrete witnesses. -/
def pathA : String := "/videos/a.mp4"

/-- Second sample path used by concrete witnesses. -/
def pathB : String := "/videos/b.mp4"

/-- A path whose pipeline fails to come up, used by concrete witnesses. -/
def pathMissing : String := "/videos/missing.mp4"

/-- A running video slot with initialized textures, for witnesses. -/
def vidPlayingA : Video :=
  { pipeline := some (), appsink := some (), bus := some ()
    width := 1920, height := 1080
    texY := 1, texUV := 2, tex_inited := true
    path := pathA, playing := true }

/-- A second running video slot with initialized textures. -/
def vidPlayingB : Video :=
  { pipeline := some (), appsink := some (), bus := some ()
    width := 1920, height := 1080
    texY := 3, texUV := 4, tex_inited := true
    path := pathB, playing := true }

/-- A mid-fade engine state (clock latched at 100 ms), for witnesses. -/
def veFadingW : VideoEngine :=
  { cur := vidPlayingA, nxt := vidPlayingB, transitioning := true
    blend := 1 / 2, xfade_start_ms := 100, xfade_seconds := 3 / 5
    pending_path := "", pending := false }

/-- A quiet tick at time 0, for witnesses. -/
def tickQuiet : TickInput :=
  { now1 := 0, now2 := 0, curFrame := false, nxtFrame := false, startStep := StartStep.ok }

/-- A tick at 800 ms (700 ms past the latched clock of `veFadingW`),
enough to complete a 0.6 s fade, for witnesses. -/
def tickFinishW : TickInput :=
  { now1 := 800, now2 := 800, curFrame := false, nxtFrame := false, startStep := StartStep.ok }

/-- A tick at 200 ms, mid-fade for `veFadingW`, for witnesses. -/
def tickMidW : TickInput :=
  { now1 := 200, now2 := 200, curFrame := false, nxtFrame := false, startStep := StartStep.ok }

/-- A tick whose pending start fails at the appsink-lookup step. -/
def tickSinkFailW : TickInput :=
  { now1 := 0, now2 := 0, curFrame := false, nxtFrame := false, startStep := StartStep.sinkFail }

/-- Tight NV12 frame for the uploader witness: 2x2, strideY = w = 2,
strideUV = (w/2)*2 = 2. -/
def frameTightW : FramePlanes :=
  { w := 2, h := 2, strideY := 2, strideUV := 2
    dataY := fun n => 10 * (n / 2) + n % 2
    dataUV := fun n => 100 + n % 2 + 10 * (n / 2) }

/-- Padded NV12 frame with the same pixel content as `frameTightW`:
strideY = 4 > 2, strideUV = 3 > 2, padding bytes 99 / 77. -/
def framePaddedW : FramePlanes :=
  { w := 2, h := 2, strideY := 4, strideUV := 3
    dataY := fun n => if n % 4 < 2 then 10 * (n / 4) + n % 4 else 99
    dataUV := fun n => if n % 3 < 2 then 100 + n % 3 + 10 * (n / 3) else 77 }

/-- The pixel content shared by the two witness frames, Y plane. -/
def pixY : Nat → Nat → Nat := fun r i => 10 * r + i

/-- The pixel content shared by the two witness frames, UV plane. -/
def pixUV : Nat → Nat → Nat := fun r i => 100 + i + 10 * r

theorem video_update_texture_tex_mono (v : Video) (fr : Bool)
    (h : (video_update_texture v fr).tex_inited = false) : v.tex_inited = false := by
  unfold video_update_texture at h
  split_ifs at h
  · exact h
  · exact h

theorem engineInv_init : EngineInv ve_init := by
  constructor
  · rfl
  · intro h
    simp [ve_init] at h

theorem engineInv_request (ve : VideoEngine) (p : String) (hI : EngineInv ve) :
    EngineInv (ve_request_transition ve p) := by
  unfold ve_request_transition
  split_ifs
  · exact hI
  · exact hI

theorem engineInv_startCur (ve : VideoEngine) (p : String) (step : StartStep)
    (hI : EngineInv ve) : EngineInv (ve_start_current ve p step).2 := by
  obtain ⟨hdur, hnf⟩ := hI
  exact ⟨hdur, hnf⟩

theorem engineInv_update (ve : VideoEngine) (inp : TickInput) (hI : EngineInv ve) :
    EngineInv (ve_update ve inp).1 := by
  obtain ⟨hdur, hnf⟩ := hI
  unfold ve_update
  dsimp only
  by_cases htr : ve.transitioning = true
  · rw [if_pos htr]
    by_cases hn : (video_update_texture ve.nxt inp.nxtFrame).tex_inited = true
    · split_ifs <;> refine ⟨hdur, ?_⟩ <;> intro h1 h2 <;> dsimp only at h1 h2 <;>
        first
          | exact Bool.noConfusion h1
          | (rw [hn] at h2; exact Bool.noConfusion h2)
    · have hn0 : ve.nxt.tex_inited = false :=
        video_update_texture_tex_mono _ _ (by simpa using hn)
      obtain ⟨hb, hs⟩ := hnf htr hn0
      rw [if_neg (show ¬(ve.xfade_start_ms = 0 ∧
          (video_update_texture ve.nxt inp.nxtFrame).tex_inited = true) from
        fun hc => hn hc.2)]
      dsimp only
      rw [if_neg (show ¬(ve.xfade_start_ms ≠ 0) from fun hne => hne hs)]
      exact ⟨hdur, fun _ _ => ⟨hb, hs⟩⟩
  · rw [if_neg htr]
    unfold ve_try_start_next
    dsimp only
    split_ifs with h1 h2
    · exact ⟨hdur, fun ht _ => absurd ht htr⟩
    · exact ⟨hdur, fun ht _ => absurd ht htr⟩
    · exact ⟨hdur, fun _ _ => ⟨rfl, rfl⟩⟩

theorem reachable_engineInv (ve : VideoEngine) (h : Reachable ve) : EngineInv ve := by
  induction h with
  | init => exact engineInv_init
  | request ve p _ ih => exact engineInv_request ve p ih
  | startCur ve p step _ ih => exact engineInv_startCur ve p step ih
  | update ve inp _ _ ih => exact engineInv_update ve inp ih

theorem apply_corners_core (x0 y0 x1 y1 x2 y2 x3 y3 G W : ℚ) (M : HMatrix)
    (hMa : M.a = x1 - x0 + G * x1) (hMb : M.b = x3 - x0 + W * x3) (hMc : M.c = x0)
    (hMd : M.d = y1 - y0 + G * y1) (hMe : M.e = y3 - y0 + W * y3) (hMf : M.f = y0)
    (hMg : M.g = G) (hMh : M.h = W)
    (hcr1 : G * (x1 - x2) + W * (x3 - x2) = x0 - x1 + x2 - x3)
    (hcr2 : G * (y1 - y2) + W * (y3 - y2) = y0 - y1 + y2 - y3)
    (hg : 1 + G ≠ 0) (hh : 1 + W ≠ 0) (hgh : 1 + G + W ≠ 0) :
    apply_homography M 0 0 = (x0, y0) ∧
    apply_homography M 1 0 = (x1, y1) ∧
    apply_homography M 1 1 = (x2, y2) ∧
    apply_homography M 0 1 = (x3, y3) := by
  dsimp only [apply_homography]
  rw [hMa, hMb, hMc, hMd, hMe, hMf, hMg, hMh]
  refine ⟨?_, ?_, ?_, ?_⟩
  · rw [if_neg (by intro hc; exact hg (by linarith) : ¬(G * 0 + W * 0 + 1 = 0))]
    refine Prod.ext ?_ ?_ <;> dsimp only <;>
      rw [div_eq_iff (by intro hc; exact hg (by linarith) : G * 0 + W * 0 + 1 ≠ 0)] <;> ring
  · rw [if_neg (by intro hc; exact hg (by linarith) : ¬(G * 1 + W * 0 + 1 = 0))]
    refine Prod.ext ?_ ?_ <;> dsimp only <;>
      rw [div_eq_iff (by intro hc; exact hg (by linarith) : G * 1 + W * 0 + 1 ≠ 0)] <;> ring
  · rw [if_neg (by intro hc; exact hgh (by linarith) : ¬(G * 1 + W * 1 + 1 = 0))]
    refine Prod.ext ?_ ?_ <;> dsimp only <;>
      rw [div_eq_iff (by intro hc; exact hgh (by linarith) : G * 1 + W * 1 + 1 ≠ 0)]
    · linear_combination hcr1
    · linear_combination hcr2
  · rw [if_neg (by intro hc; exact hh (by linarith) : ¬(G * 0 + W * 1 + 1 = 0))]
    refine Prod.ext ?_ ?_ <;> dsimp only <;>
      rw [div_eq_iff (by intro hc; exact hh (by linarith) : G * 0 + W * 1 + 1 ≠ 0)] <;> ring

/-- C1: for every non-degenerate corner set, the homography produced by
`homography_square_to_quad` maps (0,0),(1,0),(1,1),(0,1) back to the
four corners under `apply_homography` (exactly, in the rational model
of the float arithmetic). -/
theorem homography_roundtrip (x0 y0 x1 y1 x2 y2 x3 y3 : ℚ)
    (hnd : cornersNondegenerate x0 y0 x1 y1 x2 y2 x3 y3) :
    apply_homography (homography_square_to_quad x0 y0 x1 y1 x2 y2 x3 y3) 0 0 = (x0, y0) ∧
    apply_homography (homography_square_to_quad x0 y0 x1 y1 x2 y2 x3 y3) 1 0 = (x1, y1) ∧
    apply_homography (homography_square_to_quad x0 y0 x1 y1 x2 y2 x3 y3) 1 1 = (x2, y2) ∧
    apply_homography (homography_square_to_quad x0 y0 x1 y1 x2 y2 x3 y3) 0 1 = (x3, y3) := by
  obtain ⟨hbr, hg, hh, hgh⟩ := hnd
  by_cases haf : x0 - x1 + x2 - x3 = 0 ∧ y0 - y1 + y2 - y3 = 0
  · have hH : homography_square_to_quad x0 y0 x1 y1 x2 y2 x3 y3 =
        { a := x1 - x0, b := x3 - x0, c := x0
          d := y1 - y0, e := y3 - y0, f := y0
          g := 0, h := 0, i := 1 } := by
      simp only [homography_square_to_quad]
      rw [if_pos haf]
    refine apply_corners_core x0 y0 x1 y1 x2 y2 x3 y3 0 0 _ ?_ ?_ ?_ ?_ ?_ ?_ ?_ ?_ ?_ ?_ ?_ ?_ ?_
    · rw [hH]; dsimp only; ring
    · rw [hH]; dsimp only; ring
    · rw [hH]
    · rw [hH]; dsimp only; ring
    · rw [hH]; dsimp only; ring
    · rw [hH]
    · rw [hH]
    · rw [hH]
    · linear_combination -haf.1
    · linear_combination -haf.2
    · norm_num
    · norm_num
    · norm_num
  · have hdet : (x1 - x2) * (y3 - y2) - (x3 - x2) * (y1 - y2) ≠ 0 := by
      rcases hbr with h | h
      · exact absurd h haf
      · exact h
    have hH : homography_square_to_quad x0 y0 x1 y1 x2 y2 x3 y3 =
        { a := x1 - x0 +
            (((x0 - x1 + x2 - x3) * (y3 - y2) - (x3 - x2) * (y0 - y1 + y2 - y3)) /
              ((x1 - x2) * (y3 - y2) - (x3 - x2) * (y1 - y2))) * x1
          b := x3 - x0 +
            (((x1 - x2) * (y0 - y1 + y2 - y3) - (x0 - x1 + x2 - x3) * (y1 - y2)) /
              ((x1 - x2) * (y3 - y2) - (x3 - x2) * (y1 - y2))) * x3
          c := x0
          d := y1 - y0 +
            (((x0 - x1 + x2 - x3) * (y3 - y2) - (x3 - x2) * (y0 - y1 + y2 - y3)) /
              ((x1 - x2) * (y3 - y2) - (x3 - x2) * (y1 - y2))) * y1
          e := y3 - y0 +
            (((x1 - x2) * (y0 - y1 + y2 - y3) - (x0 - x1 + x2 - x3) * (y1 - y2)) /
              ((x1 - x2) * (y3 - y2) - (x3 - x2) * (y1 - y2))) * y3
          f := y0
          g := ((x0 - x1 + x2 - x3) * (y3 - y2) - (x3 - x2) * (y0 - y1 + y2 - y3)) /
              ((x1 - x2) * (y3 - y2) - (x3 - x2) * (y1 - y2))
          h := ((x1 - x2) * (y0 - y1 + y2 - y3) - (x0 - x1 + x2 - x3) * (y1 - y2)) /
              ((x1 - x2) * (y3 - y2) - (x3 - x2) * (y1 - y2))
          i := 1 } := by
      simp only [homography_square_to_quad]
      rw [if_neg haf, if_neg hdet]
    rw [hH] at hg hh hgh
    dsimp only at hg hh hgh
    refine apply_corners_core x0 y0 x1 y1 x2 y2 x3 y3
      (((x0 - x1 + x2 - x3) * (y3 - y2) - (x3 - x2) * (y0 - y1 + y2 - y3)) /
        ((x1 - x2) * (y3 - y2) - (x3 - x2) * (y1 - y2)))
      (((x1 - x2) * (y0 - y1 + y2 - y3) - (x0 - x1 + x2 - x3) * (y1 - y2)) /
        ((x1 - x2) * (y3 - y2) - (x3 - x2) * (y1 - y2)))
      _ ?_ ?_ ?_ ?_ ?_ ?_ ?_ ?_ ?_ ?_ hg hh hgh
    · rw [hH]
    · rw [hH]
    · rw [hH]
    · rw [hH]
    · rw [hH]
    · rw [hH]
    · rw [hH]
    · rw [hH]
    · field_simp
      ring
    · field_simp
      ring

/-- C1 witness: a concrete non-degenerate quadrilateral
(0,0),(2,0),(3,2),(0,1), exercising the projective branch. -/
theorem homography_roundtrip_witness :
    cornersNondegenerate 0 0 2 0 3 2 0 1 ∧
      (apply_homography (homography_square_to_quad 0 0 2 0 3 2 0 1) 0 0 = (0, 0) ∧
        apply_homography (homography_square_to_quad 0 0 2 0 3 2 0 1) 1 0 = (2, 0) ∧
        apply_homography (homography_square_to_quad 0 0 2 0 3 2 0 1) 1 1 = (3, 2) ∧
        apply_homography (homography_square_to_quad 0 0 2 0 3 2 0 1) 0 1 = (0, 1)) :=
  ⟨by decide, homography_roundtrip 0 0 2 0 3 2 0 1 (by decide)⟩

/-- C2: in every reachable engine state, while a transition is running
whose next source has not yet initialized its texture, the blend is
exactly 0 and the fade clock is still unset (latched only after the
first frame of the next source is ready). -/
theorem crossfade_no_flash (ve : VideoEngine) (hve : Reachable ve)
    (htr : ve.transitioning = true) (hn : ve.nxt.tex_inited = false) :
    ve.blend = 0 ∧ ve.xfade_start_ms = 0 :=
  (reachable_engineInv ve hve).2 htr hn

/-- C2 witness: the state reached by requesting a transition from the
initial state and ticking once (next started, no frame yet). -/
theorem crossfade_no_flash_witness :
    (ve_update (ve_request_transition ve_init pathA) tickQuiet).1.blend = 0 ∧
      (ve_update (ve_request_transition ve_init pathA) tickQuiet).1.xfade_start_ms = 0 :=
  crossfade_no_flash _
    (Reachable.update _ _ (Reachable.request _ _ Reachable.init) (by decide))
    (by decide) (by decide)
theorem usub32_of_le (a b : Nat) (hba : b ≤ a) (ha : a < 2 ^ 32) : usub32 a b = a - b := by
  unfold usub32
  omega

theorem compute_blend_nonneg_arg (d : Nat) (dur : ℚ) (hdur : 0 < dur) :
    compute_blend d dur = if 1 < (d : ℚ) / 1000 / dur then 1 else (d : ℚ) / 1000 / dur := by
  unfold compute_blend
  dsimp only
  rw [if_neg (not_lt.mpr (div_nonneg (div_nonneg (Nat.cast_nonneg d) (by norm_num)) hdur.le))]

theorem compute_blend_mono (d1 d2 : Nat) (dur : ℚ) (hdur : 0 < dur) (h : d1 ≤ d2) :
    compute_blend d1 dur ≤ compute_blend d2 dur := by
  rw [compute_blend_nonneg_arg d1 dur hdur, compute_blend_nonneg_arg d2 dur hdur]
  have hdiv : (d1 : ℚ) / 1000 / dur ≤ (d2 : ℚ) / 1000 / dur := by
    have h1 : (d1 : ℚ) ≤ (d2 : ℚ) := by exact_mod_cast h
    have h2 : (d1 : ℚ) / 1000 ≤ (d2 : ℚ) / 1000 := by linarith
    exact div_le_div_of_nonneg_right h2 hdur.le
  split_ifs with ha hb
  · exact le_refl 1
  · linarith
  · linarith
  · exact hdiv

theorem compute_blend_le_one (d : Nat) (dur : ℚ) (hdur : 0 < dur) :
    compute_blend d dur ≤ 1 := by
  rw [compute_blend_nonneg_arg d dur hdur]
  split_ifs with ha
  · exact le_refl 1
  · exact not_lt.mp ha

theorem compute_blend_eq_one_iff (d : Nat) (dur : ℚ) (hdur : 0 < dur) :
    compute_blend d dur = 1 ↔ dur * 1000 ≤ (d : ℚ) := by
  rw [compute_blend_nonneg_arg d dur hdur]
  have hkey : 1 ≤ (d : ℚ) / 1000 / dur ↔ dur * 1000 ≤ (d : ℚ) := by
    rw [one_le_div hdur, le_div_iff₀ (by norm_num : (0:ℚ) < 1000)]
  constructor
  · intro h1
    split_ifs at h1 with ha
    · exact hkey.mp (le_of_lt ha)
    · exact hkey.mp (le_of_eq h1.symm)
  · intro h2
    have := hkey.mpr h2
    split_ifs with ha
    · rfl
    · linarith

theorem video_start_fails_iff (v : Video) (p : String) (step : StartStep) :
    (video_start v p step).1 = false ↔ step ≠ StartStep.ok := by
  cases step <;> simp [video_start]

theorem ve_update_fading_continue (ve : VideoEngine) (inp : TickInput)
    (htr : ve.transitioning = true) (hs0 : ve.xfade_start_ms ≠ 0)
    (hlt : compute_blend (usub32 inp.now2 ve.xfade_start_ms) ve.xfade_seconds < 1) :
    ve_update ve inp =
      ({ ve with
          cur := video_update_texture ve.cur inp.curFrame
          nxt := video_update_texture ve.nxt inp.nxtFrame
          blend := compute_blend (usub32 inp.now2 ve.xfade_start_ms) ve.xfade_seconds },
        []) := by
  unfold ve_update
  dsimp only
  rw [if_pos htr]
  rw [if_neg (show ¬(ve.xfade_start_ms = 0 ∧
      (video_update_texture ve.nxt inp.nxtFrame).tex_inited = true) from
    fun hc => hs0 hc.1)]
  rw [if_pos (show ve.xfade_start_ms ≠ 0 from hs0)]
  dsimp only
  rw [if_neg (not_le.mpr hlt)]

theorem ve_update_finish_eq (ve : VideoEngine) (inp : TickInput)
    (htr : ve.transitioning = true) (hs0 : ve.xfade_start_ms ≠ 0)
    (hge : 1 ≤ compute_blend (usub32 inp.now2 ve.xfade_start_ms) ve.xfade_seconds) :
    ve_update ve inp =
      ({ ve with
          cur := video_update_texture ve.nxt inp.nxtFrame
          nxt := video_empty
          transitioning := false
          blend := 0
          xfade_start_ms := 0 },
        [VEAction.stopVideo (video_update_texture ve.cur inp.curFrame),
          VEAction.deleteTextures (video_stop (video_update_texture ve.cur inp.curFrame))]) := by
  unfold ve_update
  dsimp only
  rw [if_pos htr]
  rw [if_neg (show ¬(ve.xfade_start_ms = 0 ∧
      (video_update_texture ve.nxt inp.nxtFrame).tex_inited = true) from
    fun hc => hs0 hc.1)]
  rw [if_pos (show ve.xfade_start_ms ≠ 0 from hs0)]
  dsimp only
  rw [if_pos hge]
  rfl

theorem ve_update_steady (ve : VideoEngine) (inp : TickInput)
    (htr : ve.transitioning = false) :
    ve_update ve inp =
      ve_try_start_next { ve with cur := video_update_texture ve.cur inp.curFrame }
        inp.startStep := by
  unfold ve_update
  dsimp only
  rw [if_neg (show ¬(ve.transitioning = true) by rw [htr]; exact Bool.noConfusion)]

theorem ve_try_start_next_no_pending (ve : VideoEngine) (step : StartStep)
    (hp : ve.pending = false) :
    ve_try_start_next ve step = (ve, []) := by
  unfold ve_try_start_next
  rw [if_pos hp]

theorem ve_try_start_next_fail (ve : VideoEngine) (step : StartStep)
    (hp : ve.pending = true) (htr : ve.transitioning = false)
    (hs : step ≠ StartStep.ok) :
    ve_try_start_next ve step =
      ({ ve with nxt := (video_start ve.nxt ve.pending_path step).2.1, pending := false },
        [VEAction.startVideo ve.pending_path false]) := by
  unfold ve_try_start_next
  rw [if_neg (show ¬(ve.pending = false) by rw [hp]; exact Bool.noConfusion)]
  rw [if_neg (show ¬(ve.transitioning = true) by rw [htr]; exact Bool.noConfusion)]
  dsimp only
  rw [if_pos ((video_start_fails_iff ve.nxt ve.pending_path step).mpr hs)]

theorem ve_try_start_next_ok (ve : VideoEngine)
    (hp : ve.pending = true) (htr : ve.transitioning = false) :
    ve_try_start_next ve StartStep.ok =
      ({ ve with
          nxt := (video_start ve.nxt ve.pending_path StartStep.ok).2.1
          pending := false
          transitioning := true
          blend := 0
          xfade_start_ms := 0 },
        [VEAction.startVideo ve.pending_path true]) := by
  unfold ve_try_start_next
  rw [if_neg (show ¬(ve.pending = false) by rw [hp]; exact Bool.noConfusion)]
  rw [if_neg (show ¬(ve.transitioning = true) by rw [htr]; exact Bool.noConfusion)]
  dsimp only
  rw [if_neg (show ¬((video_start ve.nxt ve.pending_path StartStep.ok).1 = false) by
    simp [video_start])]

/-- C3: once the fade clock is latched, for non-decreasing Uint32 clock
readings the blend computed while fading is non-decreasing, never
exceeds 1, and equals exactly 1 precisely when at least xfade_seconds
have elapsed since the latched start; while the computed blend is still
below 1, `ve_update` stores exactly that value and stays in the
transition with the same fade clock. -/
theorem crossfade_blend_monotone (ve : VideoEngine) (inp : TickInput) (n2 : Nat)
    (htr : ve.transitioning = true) (hs0 : ve.xfade_start_ms ≠ 0)
    (hdur : 0 < ve.xfade_seconds)
    (hle : ve.xfade_start_ms ≤ inp.now2) (h12 : inp.now2 ≤ n2) (hlt32 : n2 < 2 ^ 32) :
    compute_blend (usub32 inp.now2 ve.xfade_start_ms) ve.xfade_seconds ≤
        compute_blend (usub32 n2 ve.xfade_start_ms) ve.xfade_seconds ∧
      compute_blend (usub32 n2 ve.xfade_start_ms) ve.xfade_seconds ≤ 1 ∧
      (compute_blend (usub32 n2 ve.xfade_start_ms) ve.xfade_seconds = 1 ↔
        ve.xfade_seconds * 1000 ≤ ((n2 - ve.xfade_start_ms : Nat) : ℚ)) ∧
      (compute_blend (usub32 inp.now2 ve.xfade_start_ms) ve.xfade_seconds < 1 →
        (ve_update ve inp).1.blend =
            compute_blend (usub32 inp.now2 ve.xfade_start_ms) ve.xfade_seconds ∧
          (ve_update ve inp).1.transitioning = true ∧
          (ve_update ve inp).1.xfade_start_ms = ve.xfade_start_ms) := by
  have e1 : usub32 inp.now2 ve.xfade_start_ms = inp.now2 - ve.xfade_start_ms :=
    usub32_of_le _ _ hle (lt_of_le_of_lt h12 hlt32)
  have e2 : usub32 n2 ve.xfade_start_ms = n2 - ve.xfade_start_ms :=
    usub32_of_le _ _ (le_trans hle h12) hlt32
  refine ⟨?_, compute_blend_le_one _ _ hdur, ?_, ?_⟩
  · rw [e1, e2]
    exact compute_blend_mono _ _ _ hdur (Nat.sub_le_sub_right h12 _)
  · rw [e2]
    exact compute_blend_eq_one_iff _ _ hdur
  · intro hlt
    rw [ve_update_fading_continue ve inp htr hs0 hlt]
    exact ⟨rfl, htr, rfl⟩

/-- C4: on the tick in which the blend reaches 1 while fading,
`ve_update` stops and releases the old current source (a stop of the
pipeline followed by a texture delete on the stopped slot), moves the
next slot (as updated this tick) into the current slot, resets the next
slot to the all-zero empty state, clears the transitioning flag, and
resets blend and fade clock to 0. -/
theorem crossfade_finish_swaps (ve : VideoEngine) (inp : TickInput)
    (htr : ve.transitioning = true) (hs0 : ve.xfade_start_ms ≠ 0)
    (hge : 1 ≤ compute_blend (usub32 inp.now2 ve.xfade_start_ms) ve.xfade_seconds) :
    (ve_update ve inp).1.cur = video_update_texture ve.nxt inp.nxtFrame ∧
      (ve_update ve inp).1.nxt = video_empty ∧
      (ve_update ve inp).1.transitioning = false ∧
      (ve_update ve inp).1.blend = 0 ∧
      (ve_update ve inp).1.xfade_start_ms = 0 ∧
      (ve_update ve inp).2 =
        [VEAction.stopVideo (video_update_texture ve.cur inp.curFrame),
          VEAction.deleteTextures (video_stop (video_update_texture ve.cur inp.curFrame))] ∧
      (video_stop (video_update_texture ve.cur inp.curFrame)).playing = false ∧
      (video_stop (video_update_texture ve.cur inp.curFrame)).pipeline = none ∧
      (video_delete_textures
          (video_stop (video_update_texture ve.cur inp.curFrame))).tex_inited = false := by
  rw [ve_update_finish_eq ve inp htr hs0 hge]
  refine ⟨rfl, rfl, rfl, rfl, rfl, rfl, rfl, rfl, ?_⟩
  unfold video_delete_textures
  split_ifs with h
  · rfl
  · simpa using h

theorem ve_update_steady_fail_eq (ve : VideoEngine) (inp : TickInput)
    (htr : ve.transitioning = false) (hp : ve.pending = true)
    (hfail : inp.startStep ≠ StartStep.ok) :
    ve_update ve inp =
      ({ ve with
          cur := video_update_texture ve.cur inp.curFrame
          nxt := (video_start ve.nxt ve.pending_path inp.startStep).2.1
          pending := false },
        [VEAction.startVideo ve.pending_path false]) := by
  rw [ve_update_steady ve inp htr]
  rw [ve_try_start_next_fail
    { ve with cur := video_update_texture ve.cur inp.curFrame } inp.startStep hp htr hfail]

theorem ve_update_steady_ok_eq (ve : VideoEngine) (inp : TickInput)
    (htr : ve.transitioning = false) (hp : ve.pending = true)
    (hok : inp.startStep = StartStep.ok) :
    ve_update ve inp =
      ({ ve with
          cur := video_update_texture ve.cur inp.curFrame
          nxt := (video_start ve.nxt ve.pending_path StartStep.ok).2.1
          pending := false
          transitioning := true
          blend := 0
          xfade_start_ms := 0 },
        [VEAction.startVideo ve.pending_path true]) := by
  rw [ve_update_steady ve inp htr, hok]
  rw [ve_try_start_next_ok
    { ve with cur := video_update_texture ve.cur inp.curFrame } hp htr]

theorem ve_update_steady_idle_eq (ve : VideoEngine) (inp : TickInput)
    (htr : ve.transitioning = false) (hp : ve.pending = false) :
    ve_update ve inp =
      ({ ve with cur := video_update_texture ve.cur inp.curFrame }, []) := by
  rw [ve_update_steady ve inp htr]
  rw [ve_try_start_next_no_pending
    { ve with cur := video_update_texture ve.cur inp.curFrame } inp.startStep hp]

/-- C5: two transition requests issued before the first is serviced
leave only the second path pending (latest request wins, requests start
nothing by themselves), and the next steady tick starts exactly the
second path and never the first. -/
theorem latest_request_wins (ve : VideoEngine) (inp : TickInput) (p1 p2 : String)
    (hp1 : p1 ≠ "") (hp2 : p2 ≠ "") (hne : p1 ≠ p2) (htr : ve.transitioning = false) :
    (ve_request_transition (ve_request_transition ve p1) p2).pending_path = p2 ∧
      (ve_request_transition (ve_request_transition ve p1) p2).pending = true ∧
      (ve_request_transition (ve_request_transition ve p1) p2).cur = ve.cur ∧
      (ve_request_transition (ve_request_transition ve p1) p2).nxt = ve.nxt ∧
      (ve_request_transition (ve_request_transition ve p1) p2).transitioning =
        ve.transitioning ∧
      (∀ ok : Bool,
        VEAction.startVideo p1 ok ∉
          (ve_update (ve_request_transition (ve_request_transition ve p1) p2) inp).2) ∧
      (∃ ok : Bool,
        (ve_update (ve_request_transition (ve_request_transition ve p1) p2) inp).2 =
          [VEAction.startVideo p2 ok]) := by
  have hreq : ve_request_transition (ve_request_transition ve p1) p2 =
      { ve with pending_path := p2, pending := true } := by
    unfold ve_request_transition
    rw [if_neg hp1, if_neg hp2]
  rw [hreq]
  refine ⟨rfl, rfl, rfl, rfl, rfl, ?_, ?_⟩
  · intro ok
    by_cases hok : inp.startStep = StartStep.ok
    · rw [ve_update_steady_ok_eq { ve with pending_path := p2, pending := true } inp htr rfl hok]
      simp [hne]
    · rw [ve_update_steady_fail_eq { ve with pending_path := p2, pending := true } inp htr rfl hok]
      simp [hne]
  · by_cases hok : inp.startStep = StartStep.ok
    · exact ⟨true,
        by rw [ve_update_steady_ok_eq { ve with pending_path := p2, pending := true } inp htr rfl hok]⟩
    · exact ⟨false,
        by rw [ve_update_steady_fail_eq { ve with pending_path := p2, pending := true } inp htr rfl hok]⟩

theorem ve_run_idle (inps : List TickInput) : ∀ ve : VideoEngine,
    ve.pending = false → ve.transitioning = false →
    (ve_run ve inps).2 = [] ∧ (ve_run ve inps).1.pending = false ∧
      (ve_run ve inps).1.transitioning = false := by
  induction inps with
  | nil => exact fun ve hp htr => ⟨rfl, hp, htr⟩
  | cons i rest ih =>
      intro ve hp htr
      have he : ve_update ve i = ({ ve with cur := video_update_texture ve.cur i.curFrame }, []) :=
        ve_update_steady_idle_eq ve i htr hp
      obtain ⟨he2, hp2, ht2⟩ :=
        ih { ve with cur := video_update_texture ve.cur i.curFrame } hp htr
      unfold ve_run
      dsimp only
      rw [he]
      dsimp only
      rw [he2]
      exact ⟨rfl, hp2, ht2⟩

/-- C6: when the pending start fails on a steady tick, the pending flag
is cleared, the engine stays out of transition, the current slot is
exactly what the tick's normal texture update alone produced (the
failed attempt does not touch it), blend and fade clock are unchanged,
and no later run of ticks ever starts a video again without a new
request. -/
theorem failed_start_drops_request (ve : VideoEngine) (inp : TickInput)
    (htr : ve.transitioning = false) (hp : ve.pending = true)
    (hfail : inp.startStep ≠ StartStep.ok) :
    (ve_update ve inp).1.pending = false ∧
      (ve_update ve inp).1.transitioning = false ∧
      (ve_update ve inp).1.cur = video_update_texture ve.cur inp.curFrame ∧
      (ve_update ve inp).1.blend = ve.blend ∧
      (ve_update ve inp).1.xfade_start_ms = ve.xfade_start_ms ∧
      ∀ (inps : List TickInput) (p : String) (ok : Bool),
        VEAction.startVideo p ok ∉ (ve_run (ve_update ve inp).1 inps).2 := by
  rw [ve_update_steady_fail_eq ve inp htr hp hfail]
  refine ⟨rfl, htr, rfl, rfl, rfl, ?_⟩
  intro inps p ok
  dsimp only
  rw [(ve_run_idle inps
    { ve with
        cur := video_update_texture ve.cur inp.curFrame
        nxt := (video_start ve.nxt ve.pending_path inp.startStep).2.1
        pending := false } rfl htr).1]
  exact List.not_mem_nil _

/-- C7 counterexample: when `video_start` fails at the appsink-lookup
step, the claim's "no live pipeline handle retained" is false: the slot
keeps the partially constructed pipeline handle (video.c returns 0 at
line 34 without releasing `v->pipeline`). -/
theorem video_start_failure_keeps_pipeline :
    (video_start video_empty pathMissing StartStep.sinkFail).1 = false ∧
      (video_start video_empty pathMissing StartStep.sinkFail).2.1.pipeline = some () := by
  decide

/-- C7 (amended): on every failing step `video_start` returns 0 with no
textures and not playing, and logs the failure reason; the pipeline
handle is released (never stored) only on the parse-failure path, while
the appsink-lookup and state-change failure paths leak the handles
already acquired. -/
theorem video_start_failure_state (v : Video) (filename : String) (step : StartStep)
    (hstep : step ≠ StartStep.ok) :
    (video_start v filename step).1 = false ∧
      (video_start v filename step).2.1.tex_inited = false ∧
      (video_start v filename step).2.1.playing = false ∧
      (video_start v filename step).2.2 ≠ [] ∧
      (step = StartStep.parseFail → (video_start v filename step).2.1.pipeline = none) := by
  cases step
  · exact ⟨rfl, rfl, rfl, by simp [video_start], fun _ => rfl⟩
  · exact ⟨rfl, rfl, rfl, by simp [video_start], fun h => StartStep.noConfusion h⟩
  · exact ⟨rfl, rfl, rfl, by simp [video_start], fun h => StartStep.noConfusion h⟩
  · exact absurd rfl hstep

/-- C7 witness: the parse-failure path on a concrete missing file. -/
theorem video_start_failure_state_witness :
    (video_start video_empty pathMissing StartStep.parseFail).1 = false ∧
      (video_start video_empty pathMissing StartStep.parseFail).2.1.tex_inited = false ∧
      (video_start video_empty pathMissing StartStep.parseFail).2.1.playing = false ∧
      (video_start video_empty pathMissing StartStep.parseFail).2.2 ≠ [] ∧
      (StartStep.parseFail = StartStep.parseFail →
        (video_start video_empty pathMissing StartStep.parseFail).2.1.pipeline = none) :=
  video_start_failure_state video_empty pathMissing StartStep.parseFail (by decide)

/-- C8: `video_stop` only releases the pipeline side: pipeline, appsink
and bus become NULL and playing becomes 0, while both texture ids, the
tex_inited flag, the recorded width/height and the path are untouched. -/
theorem video_stop_releases_pipeline_only (v : Video) :
    (video_stop v).pipeline = none ∧ (video_stop v).appsink = none ∧
      (video_stop v).bus = none ∧ (video_stop v).playing = false ∧
      (video_stop v).texY = v.texY ∧ (video_stop v).texUV = v.texUV ∧
      (video_stop v).tex_inited = v.tex_inited ∧
      (video_stop v).width = v.width ∧ (video_stop v).height = v.height ∧
      (video_stop v).path = v.path :=
  ⟨rfl, rfl, rfl, rfl, rfl, rfl, rfl, rfl, rfl, rfl⟩

/-- C9: uploading a plane whose stride equals its tight row size (one
whole-plane upload) and uploading the same pixel content at a strictly
larger stride (row-by-row upload at stride offsets) store identical
pixel content in the texture, for both the Y and the interleaved UV
plane; the padding bytes beyond each row never reach the texture. -/
theorem upload_stride_equivalence (f g : FramePlanes) (pY pUV : Nat → Nat → Nat)
    (hgw : g.w = f.w) (_hgh : g.h = f.h)
    (hfY : f.strideY = f.w) (hfUV : f.strideUV = f.w / 2 * 2)
    (hgY : f.w < g.strideY) (hgUV : f.w / 2 * 2 < g.strideUV)
    (hfy : ∀ r, r < f.h → ∀ i, i < f.w → f.dataY (r * f.w + i) = pY r i)
    (hgy : ∀ r, r < f.h → ∀ i, i < f.w → g.dataY (r * g.strideY + i) = pY r i)
    (hfuv : ∀ r, r < f.h / 2 → ∀ i, i < f.w / 2 * 2 →
      f.dataUV (r * (f.w / 2 * 2) + i) = pUV r i)
    (hguv : ∀ r, r < f.h / 2 → ∀ i, i < f.w / 2 * 2 →
      g.dataUV (r * g.strideUV + i) = pUV r i) :
    (∀ r, r < f.h → ∀ i, i < f.w →
      (upload_nv12_frame f).1 r i = pY r i ∧ (upload_nv12_frame g).1 r i = pY r i) ∧
    (∀ r, r < f.h / 2 → ∀ i, i < f.w / 2 * 2 →
      (upload_nv12_frame f).2 r i = pUV r i ∧ (upload_nv12_frame g).2 r i = pUV r i) := by
  unfold upload_nv12_frame uploadPlane
  constructor
  · intro r hr i hi
    constructor
    · rw [if_pos hfY]
      exact hfy r hr i hi
    · rw [hgw, if_neg (Nat.ne_of_gt hgY)]
      exact hgy r hr i hi
  · intro r hr i hi
    constructor
    · rw [if_pos hfUV]
      exact hfuv r hr i hi
    · rw [hgw, if_neg (Nat.ne_of_gt hgUV)]
      exact hguv r hr i hi

/-- C10: whenever the engine is not (transitioning with an initialized
next texture), `ve_bind_textures_and_blend` binds the current slot's
textures (or texture 0 when current has none) to units 2 and 3 and sets
the blend uniform to 0; in particular the next slot's texture handles
are never bound while its texture is uninitialized. -/
theorem bind_not_fading_defaults (ve : VideoEngine)
    (h : ¬(ve.transitioning = true ∧ ve.nxt.tex_inited = true)) :
    (ve_bind_textures_and_blend ve).unit2 =
        (if ve.cur.tex_inited then ve.cur.texY else 0) ∧
      (ve_bind_textures_and_blend ve).unit3 =
        (if ve.cur.tex_inited then ve.cur.texUV else 0) ∧
      (ve_bind_textures_and_blend ve).blendUniform = 0 := by
  unfold ve_bind_textures_and_blend
  dsimp only
  rw [if_neg h]
  exact ⟨rfl, rfl, rfl⟩

/-- C3 witness: mid-fade state latched at 100 ms, ticks at 200 ms and
800 ms with duration 0.6 s. -/
theorem crossfade_blend_monotone_witness :
    compute_blend (usub32 tickMidW.now2 veFadingW.xfade_start_ms) veFadingW.xfade_seconds ≤
        compute_blend (usub32 800 veFadingW.xfade_start_ms) veFadingW.xfade_seconds ∧
      compute_blend (usub32 800 veFadingW.xfade_start_ms) veFadingW.xfade_seconds ≤ 1 ∧
      (compute_blend (usub32 800 veFadingW.xfade_start_ms) veFadingW.xfade_seconds = 1 ↔
        veFadingW.xfade_seconds * 1000 ≤ ((800 - veFadingW.xfade_start_ms : Nat) : ℚ)) ∧
      (compute_blend (usub32 tickMidW.now2 veFadingW.xfade_start_ms)
            veFadingW.xfade_seconds < 1 →
        (ve_update veFadingW tickMidW).1.blend =
            compute_blend (usub32 tickMidW.now2 veFadingW.xfade_start_ms)
              veFadingW.xfade_seconds ∧
          (ve_update veFadingW tickMidW).1.transitioning = true ∧
          (ve_update veFadingW tickMidW).1.xfade_start_ms = veFadingW.xfade_start_ms) :=
  crossfade_blend_monotone veFadingW tickMidW 800 (by decide) (by decide) (by decide)
    (by decide) (by decide) (by decide)

/-- C4 witness: the fade latched at 100 ms completes on a tick at
800 ms. -/
theorem crossfade_finish_swaps_witness :
    (ve_update veFadingW tickFinishW).1.cur =
        video_update_texture veFadingW.nxt tickFinishW.nxtFrame ∧
      (ve_update veFadingW tickFinishW).1.nxt = video_empty ∧
      (ve_update veFadingW tickFinishW).1.transitioning = false ∧
      (ve_update veFadingW tickFinishW).1.blend = 0 ∧
      (ve_update veFadingW tickFinishW).1.xfade_start_ms = 0 ∧
      (ve_update veFadingW tickFinishW).2 =
        [VEAction.stopVideo (video_update_texture veFadingW.cur tickFinishW.curFrame),
          VEAction.deleteTextures
            (video_stop (video_update_texture veFadingW.cur tickFinishW.curFrame))] ∧
      (video_stop (video_update_texture veFadingW.cur tickFinishW.curFrame)).playing = false ∧
      (video_stop (video_update_texture veFadingW.cur tickFinishW.curFrame)).pipeline = none ∧
      (video_delete_textures
          (video_stop
            (video_update_texture veFadingW.cur tickFinishW.curFrame))).tex_inited = false :=
  crossfade_finish_swaps veFadingW tickFinishW (by decide) (by decide) (by decide)

/-- C5 witness: two concrete requests from the initial state, then one
tick. -/
theorem latest_request_wins_witness :
    (ve_request_transition (ve_request_transition ve_init pathA) pathB).pending_path = pathB ∧
      (ve_request_transition (ve_request_transition ve_init pathA) pathB).pending = true ∧
      (ve_request_transition (ve_request_transition ve_init pathA) pathB).cur = ve_init.cur ∧
      (ve_request_transition (ve_request_transition ve_init pathA) pathB).nxt = ve_init.nxt ∧
      (ve_request_transition (ve_request_transition ve_init pathA) pathB).transitioning =
        ve_init.transitioning ∧
      (∀ ok : Bool,
        VEAction.startVideo pathA ok ∉
          (ve_update (ve_request_transition (ve_request_transition ve_init pathA) pathB)
              tickQuiet).2) ∧
      (∃ ok : Bool,
        (ve_update (ve_request_transition (ve_request_transition ve_init pathA) pathB)
              tickQuiet).2 =
          [VEAction.startVideo pathB ok]) :=
  latest_request_wins ve_init tickQuiet pathA pathB (by decide) (by decide) (by decide)
    (by decide)

/-- C6 witness: a request whose start fails at the appsink step on the
next tick. -/
theorem failed_start_drops_request_witness :
    (ve_update (ve_request_transition ve_init pathMissing) tickSinkFailW).1.pending = false ∧
      (ve_update (ve_request_transition ve_init pathMissing) tickSinkFailW).1.transitioning =
        false ∧
      (ve_update (ve_request_transition ve_init pathMissing) tickSinkFailW).1.cur =
        video_update_texture (ve_request_transition ve_init pathMissing).cur
          tickSinkFailW.curFrame ∧
      (ve_update (ve_request_transition ve_init pathMissing) tickSinkFailW).1.blend =
        (ve_request_transition ve_init pathMissing).blend ∧
      (ve_update (ve_request_transition ve_init pathMissing) tickSinkFailW).1.xfade_start_ms =
        (ve_request_transition ve_init pathMissing).xfade_start_ms ∧
      ∀ (inps : List TickInput) (p : String) (ok : Bool),
        VEAction.startVideo p ok ∉
          (ve_run (ve_update (ve_request_transition ve_init pathMissing) tickSinkFailW).1
              inps).2 :=
  failed_start_drops_request (ve_request_transition ve_init pathMissing) tickSinkFailW
    (by decide) (by decide) (by decide)

/-- C9 witness: a concrete 2x2 frame, tight strides (2, 2) versus
padded strides (4, 3) with padding bytes 99 and 77. -/
theorem upload_stride_equivalence_witness :
    (∀ r, r < frameTightW.h → ∀ i, i < frameTightW.w →
      (upload_nv12_frame frameTightW).1 r i = pixY r i ∧
        (upload_nv12_frame framePaddedW).1 r i = pixY r i) ∧
    (∀ r, r < frameTightW.h / 2 → ∀ i, i < frameTightW.w / 2 * 2 →
      (upload_nv12_frame frameTightW).2 r i = pixUV r i ∧
        (upload_nv12_frame framePaddedW).2 r i = pixUV r i) :=
  upload_stride_equivalence frameTightW framePaddedW pixY pixUV (by decide) (by decide)
    (by decide) (by decide) (by decide) (by decide) (by decide) (by decide) (by decide)
    (by decide)

/-- C10 witness: the initial engine state, which is not transitioning. -/
theorem bind_not_fading_defaults_witness :
    (ve_bind_textures_and_blend ve_init).unit2 =
        (if ve_init.cur.tex_inited then ve_init.cur.texY else 0) ∧
      (ve_bind_textures_and_blend ve_init).unit3 =
        (if ve_init.cur.tex_inited then ve_init.cur.texUV else 0) ∧
      (ve_bind_textures_and_blend ve_init).blendUniform = 0 :=
  bind_not_fading_defaults ve_init (by decide)
